import Mathlib

set_option autoImplicit false

namespace AuraSpec

/-! Shallow embedding of the AURA incident-commander orchestration core
(repository `aura-incident-commander`, directory `service-orchestrator/src`).
Each definition mirrors one JavaScript function; machine details that are
external collaborators in the spec (the SHA-256 digest, the AWS SDK, wall
clocks) are passed in as explicit parameters. -/

/-! ## Audit Chain — `src/audit/logger.js` (`AuditLogger`) -/

/-- One stored entry of the hash chain, mirroring the object built in
`AuditLogger.log`: the six payload fields plus the stored `hash`. -/
structure AuditEntry where
  timestamp : Nat
  event : String
  actor : String
  resource : String
  action : String
  result : String
  previousHash : String
  hash : String
deriving Repr, DecidableEq

/-- The caller-supplied event of `AuditLogger.log(event)`. -/
structure EventInput where
  type : String
  actor : String
  resource : String
  action : String
  result : String
deriving Repr, DecidableEq

/-- `JSON.stringify` of the seven hashed fields, in the exact key order used
by `AuditLogger.calculateHash` (the stored `hash` field is not serialized).
String values are inlined verbatim; JSON escaping of exotic characters in
field values is elided, which does not affect any theorem below. -/
def serializeEntry (e : AuditEntry) : String :=
  "\x7b\"timestamp\":" ++ toString e.timestamp ++
  ",\"event\":\"" ++ e.event ++
  "\",\"actor\":\"" ++ e.actor ++
  "\",\"resource\":\"" ++ e.resource ++
  "\",\"action\":\"" ++ e.action ++
  "\",\"result\":\"" ++ e.result ++
  "\",\"previousHash\":\"" ++ e.previousHash ++ "\"\x7d"

/-- `AuditLogger.calculateHash`: digest of the deterministic serialization.
The SHA-256 digest itself is an external collaborator, abstracted as `H`. -/
def calculateHash (H : String → String) (e : AuditEntry) : String :=
  H (serializeEntry e)

/-- `chain.length > 0 ? chain[chain.length - 1].hash : '0'`. -/
def lastHash : List AuditEntry → String
  | [] => "0"
  | [e] => e.hash
  | _ :: rest => lastHash rest

/-- `AuditLogger.log`: build the entry with `previousHash` from the chain's
last entry, compute its hash, append it, return the hash. -/
def logEvent (H : String → String) (chain : List AuditEntry) (now : Nat)
    (ev : EventInput) : List AuditEntry × String :=
  let previousHash := lastHash chain
  let base : AuditEntry :=
    { timestamp := now, event := ev.type, actor := ev.actor,
      resource := ev.resource, action := ev.action, result := ev.result,
      previousHash := previousHash, hash := "" }
  let h := calculateHash H base
  (chain ++ [{ base with hash := h }], h)

/-- A chain produced by a sequence of `log` calls starting from `chain`. -/
def buildChainFrom (H : String → String) (chain : List AuditEntry) :
    List (Nat × EventInput) → List AuditEntry
  | [] => chain
  | (now, ev) :: events => buildChainFrom H (logEvent H chain now ev).1 events

/-- A chain produced by a sequence of `log` calls starting from the empty
chain (a fresh `AuditLogger`). -/
def buildChain (H : String → String) (events : List (Nat × EventInput)) :
    List AuditEntry :=
  buildChainFrom H [] events

/-- Result shape of `AuditLogger.verify`. -/
structure VerifyResult where
  valid : Bool
  tamperedAt : Option Nat
deriving Repr, DecidableEq

/-- The body of `AuditLogger.verify`'s loop, carrying the previous entry and
the running index `i`; the loop starts at `i = 1`. -/
def verifyGo (H : String → String) :
    AuditEntry → List AuditEntry → Nat → VerifyResult
  | _, [], _ => { valid := true, tamperedAt := none }
  | prev, cur :: rest, i =>
    if cur.previousHash ≠ prev.hash then { valid := false, tamperedAt := some i }
    else if calculateHash H cur ≠ cur.hash then { valid := false, tamperedAt := some i }
    else verifyGo H cur rest (i + 1)

/-- `AuditLogger.verify`: walk the chain from index 1; the entry at index 0
is only ever read as `previous`, never itself re-hashed. -/
def verifyChain (H : String → String) : List AuditEntry → VerifyResult
  | [] => { valid := true, tamperedAt := none }
  | first :: rest => verifyGo H first rest 1

/-- Mutating a stored entry: replace the `actor` field of the entry at
index 0, leaving its stored `hash` untouched. -/
def tamperGenesis : List AuditEntry → List AuditEntry
  | [] => []
  | e :: rest => { e with actor := "mallory" } :: rest

/-- The well-linkedness invariant that `log` maintains for every entry after
the first: correct back-link and correct stored hash. -/
def chainOkFrom (H : String → String) : AuditEntry → List AuditEntry → Prop
  | _, [] => True
  | prev, cur :: rest =>
    cur.previousHash = prev.hash ∧ cur.hash = calculateHash H cur ∧
      chainOkFrom H cur rest

/-- Well-linkedness of a whole chain (vacuous for the empty chain). -/
def chainOk (H : String → String) : List AuditEntry → Prop
  | [] => True
  | first :: rest => chainOkFrom H first rest

/-- The last entry of `prev :: rest`. -/
def lastEntry : AuditEntry → List AuditEntry → AuditEntry
  | prev, [] => prev
  | _, cur :: rest => lastEntry cur rest

theorem lastHash_cons (first : AuditEntry) (rest : List AuditEntry) :
    lastHash (first :: rest) = (lastEntry first rest).hash := by
  induction rest generalizing first with
  | nil => rfl
  | cons cur rest ih => simpa [lastHash, lastEntry] using ih cur

theorem verifyGo_ok (H : String → String) (rest : List AuditEntry) :
    ∀ (prev : AuditEntry) (i : Nat), chainOkFrom H prev rest →
      verifyGo H prev rest i = { valid := true, tamperedAt := none } := by
  induction rest with
  | nil => intro prev i _; rfl
  | cons cur rest ih =>
    intro prev i h
    obtain ⟨h1, h2, h3⟩ := h
    simp only [verifyGo, h1, h2, ne_eq, not_true_eq_false, if_false]
    simp [ih cur (i + 1) h3]

theorem chainOkFrom_append (H : String → String) (rest : List AuditEntry) :
    ∀ (prev e : AuditEntry), chainOkFrom H prev rest →
      e.previousHash = (lastEntry prev rest).hash →
      e.hash = calculateHash H e →
      chainOkFrom H prev (rest ++ [e]) := by
  induction rest with
  | nil => intro prev e _ hlink hhash; exact ⟨hlink, hhash, trivial⟩
  | cons cur rest ih =>
    intro prev e h hlink hhash
    obtain ⟨h1, h2, h3⟩ := h
    exact ⟨h1, h2, ih cur e h3 hlink hhash⟩

theorem chainOk_log (H : String → String) (chain : List AuditEntry)
    (now : Nat) (ev : EventInput) (h : chainOk H chain) :
    chainOk H (logEvent H chain now ev).1 := by
  cases chain with
  | nil => trivial
  | cons first rest =>
    show chainOkFrom H first (rest ++ [_])
    exact chainOkFrom_append H rest first _ h
      (by simp [lastHash_cons]) rfl

theorem chainOk_build (H : String → String)
    (events : List (Nat × EventInput)) :
    ∀ chain : List AuditEntry, chainOk H chain →
      chainOk H (buildChainFrom H chain events) := by
  induction events with
  | nil => intro chain h; exact h
  | cons ev events ih =>
    intro chain h
    exact ih (logEvent H chain ev.1 ev.2).1 (chainOk_log H chain ev.1 ev.2 h)

theorem verifyChain_of_chainOk (H : String → String)
    (chain : List AuditEntry) (h : chainOk H chain) :
    verifyChain H chain = { valid := true, tamperedAt := none } := by
  cases chain with
  | nil => rfl
  | cons first rest => exact verifyGo_ok H rest first 1 h

/-- A two-event run of the logger used as the concrete tampering scenario. -/
def demoEvents : List (Nat × EventInput) :=
  [(1, { type := "incident.detected", actor := "system",
         resource := "fn-1", action := "DETECT", result := "ok" }),
   (2, { type := "healing.started", actor := "supervisor",
         resource := "fn-1", action := "RESTART_LAMBDA", result := "ok" })]

/-- Claim C1. Any chain built by `log` alone passes `verify`; but the
claimed tamper-evidence fails at index 0: replacing the genesis entry's
`actor` field (a real mutation, shown by the changed field) still leaves
`verify` returning valid for every digest function, because the loop starts
at index 1 and never re-hashes entry 0. The claim's required outcome
`{valid: false, tamperedAt: 0}` is therefore unreachable for this mutation. -/
theorem auditChain_append_valid_but_genesis_tamper_undetected :
    (∀ (H : String → String) (events : List (Nat × EventInput)),
       verifyChain H (buildChain H events) = { valid := true, tamperedAt := none })
    ∧ (∀ H : String → String,
       verifyChain H (tamperGenesis (buildChain H demoEvents)) =
           { valid := true, tamperedAt := none }
       ∧ (tamperGenesis (buildChain H demoEvents)).head?.map AuditEntry.actor =
           some "mallory"
       ∧ (buildChain H demoEvents).head?.map AuditEntry.actor = some "system") := by
  constructor
  · intro H events
    exact verifyChain_of_chainOk H _ (chainOk_build H events [] trivial)
  · intro H
    refine ⟨?_, rfl, rfl⟩
    show verifyGo H _ [_] 1 = { valid := true, tamperedAt := none }
    exact verifyGo_ok H [_] _ 1 ⟨rfl, rfl, trivial⟩

/-! ## Supervisor Loop — `src/handlers/healAgent.js` (`HealAgent`) -/

/-- Result of one worker action; the JavaScript worker methods resolve to
small objects such as `{ action: command }` or
`{ status: 'simulated_success', action: command }`. -/
structure ActionOutcome where
  status : String
  action : String
deriving Repr, DecidableEq

/-- The behavior of the bound playbook methods (`await action(target)`):
either the resolved object or a thrown error message. The target resource is
fixed for one incident, so a worker is indexed by the command alone. -/
abbrev Worker := String → Except String ActionOutcome

/-- The keys of `this.playbook` in the `HealAgent` constructor. -/
def healPlaybook : List String :=
  ["RESTART_LAMBDA", "INCREASE_LAMBDA_TIMEOUT",
   "INCREASE_LAMBDA_MEMORY", "ROLLBACK_LAMBDA_VERSION"]

/-- `HealAgent.executeAction`: unknown command throws `Unknown plan` before
anything runs; a known command runs its worker, and a thrown worker error is
caught and degraded to `{ status: 'simulated_success', action: command }`.
Alongside the returned value we record the list of dispatched actions. -/
def executeAction (worker : Worker) (command : String) :
    Except String ActionOutcome × List String :=
  if command ∈ healPlaybook then
    match worker command with
    | .ok r => (.ok r, [command])
    | .error _ => (.ok { status := "simulated_success", action := command }, [command])
  else (.error ("Unknown plan: " ++ command), [])

/-- The value `HealAgent.run` resolves to, merged with the payload of its
final `healing.completed` event (`status`, `actionsExecuted`). -/
structure HealResult where
  success : Bool
  action : String
  correction : Bool
  status : String
  actionsExecuted : List String
deriving Repr, DecidableEq

/-- `HealAgent.run`: execute the planned command, then consult the health
check (the `Math.random() > 0.3` probe, abstracted as the Boolean
`healthCheck` per the spec's injectable-verification note). On failure,
execute the fixed Plan B `ROLLBACK_LAMBDA_VERSION` and report
`healed_after_correction` — the code performs no second verification and has
no failure branch after the fallback. The second component is the list of
dispatched actions. -/
def healRun (worker : Worker) (command : String) (healthCheck : Bool) :
    Except String HealResult × List String :=
  match executeAction worker command with
  | (.error e, log) => (.error e, log)
  | (.ok _, log1) =>
    if healthCheck then
      (.ok { success := true, action := command, correction := false,
             status := "healed", actionsExecuted := [command] }, log1)
    else
      match executeAction worker "ROLLBACK_LAMBDA_VERSION" with
      | (.error e, log2) => (.error e, log1 ++ log2)
      | (.ok _, log2) =>
        (.ok { success := true, action := "ROLLBACK_LAMBDA_VERSION",
               correction := true, status := "healed_after_correction",
               actionsExecuted := [command, "ROLLBACK_LAMBDA_VERSION"] },
         log1 ++ log2)

/-- A worker whose every action resolves normally. -/
def demoWorker : Worker := fun command => .ok { status := "ok", action := command }

/-- A worker whose underlying calls all throw (e.g. missing credentials or
`ResourceNotFoundException`). -/
def failWorker : Worker := fun _ => .error "ResourceNotFoundException"

theorem executeAction_mem (worker : Worker) (command : String)
    (h : command ∈ healPlaybook) :
    ∃ r, executeAction worker command = (.ok r, [command]) := by
  unfold executeAction
  rw [if_pos h]
  cases worker command with
  | ok r => exact ⟨r, rfl⟩
  | error e => exact ⟨_, rfl⟩

theorem executeAction_not_mem (worker : Worker) (command : String)
    (h : command ∉ healPlaybook) :
    executeAction worker command = (.error ("Unknown plan: " ++ command), []) := by
  unfold executeAction
  rw [if_neg h]

theorem healRun_run_of_mem (worker : Worker) (command : String)
    (healthCheck : Bool) (h : command ∈ healPlaybook) :
    healRun worker command healthCheck =
      if healthCheck then
        (.ok { success := true, action := command, correction := false,
               status := "healed", actionsExecuted := [command] }, [command])
      else
        (.ok { success := true, action := "ROLLBACK_LAMBDA_VERSION",
               correction := true, status := "healed_after_correction",
               actionsExecuted := [command, "ROLLBACK_LAMBDA_VERSION"] },
         [command, "ROLLBACK_LAMBDA_VERSION"]) := by
  obtain ⟨r1, hr1⟩ := executeAction_mem worker command h
  obtain ⟨r2, hr2⟩ :=
    executeAction_mem worker "ROLLBACK_LAMBDA_VERSION" (by decide)
  cases healthCheck with
  | true => simp [healRun, hr1]
  | false => simp [healRun, hr1, hr2]

/-- Claim C3. The supervisor loop dispatches at most two actions per
incident: for an in-playbook command, exactly the primary when the health
check passes and exactly primary-then-rollback when it fails; for an
out-of-playbook command, nothing is dispatched at all. No third dispatch is
possible. -/
theorem healRun_at_most_two_actions :
    ∀ (worker : Worker) (command : String) (healthCheck : Bool),
      (healRun worker command healthCheck).2.length ≤ 2
      ∧ (healRun worker command healthCheck).2 =
          (if command ∈ healPlaybook then
            (if healthCheck then [command] else [command, "ROLLBACK_LAMBDA_VERSION"])
          else []) := by
  intro worker command healthCheck
  by_cases h : command ∈ healPlaybook
  · rw [healRun_run_of_mem worker command healthCheck h, if_pos h]
    cases healthCheck <;> simp
  · have hne := executeAction_not_mem worker command h
    rw [if_neg h]
    constructor <;> simp [healRun, hne]

/-- Claim C2 counterexample. A concrete incident whose primary action's
verification fails (`healthCheck = false`): the code dispatches the rollback
and then unconditionally resolves with `success: true` and the
`healed_after_correction` completion event — the fallback is never verified,
so the "fallback verification also fails" scenario still ends reported as
healed; no FAILED terminal state exists in `HealAgent.run`. -/
theorem healRun_failed_verification_reports_healed_counterexample :
    healRun demoWorker "RESTART_LAMBDA" false =
      (.ok { success := true, action := "ROLLBACK_LAMBDA_VERSION",
             correction := true, status := "healed_after_correction",
             actionsExecuted := ["RESTART_LAMBDA", "ROLLBACK_LAMBDA_VERSION"] },
       ["RESTART_LAMBDA", "ROLLBACK_LAMBDA_VERSION"]) := rfl

/-- Claim C2 (amended). Whenever the primary action's verification fails,
the supervisor executes the single rollback fallback and then always reports
the incident healed (`healed_after_correction`, `success = true`) without
verifying the fallback; moreover every non-throwing run of the loop reports
success with a healed status — the loop has no FAILED outcome. -/
theorem healRun_self_correction_always_reports_healed :
    (∀ (worker : Worker) (command : String), command ∈ healPlaybook →
       healRun worker command false =
         (.ok { success := true, action := "ROLLBACK_LAMBDA_VERSION",
                correction := true, status := "healed_after_correction",
                actionsExecuted := [command, "ROLLBACK_LAMBDA_VERSION"] },
          [command, "ROLLBACK_LAMBDA_VERSION"]))
    ∧ (∀ (worker : Worker) (command : String) (healthCheck : Bool)
         (r : HealResult) (log : List String),
         healRun worker command healthCheck = (.ok r, log) →
         r.success = true ∧ (r.status = "healed" ∨ r.status = "healed_after_correction")) := by
  constructor
  · intro worker command h
    rw [healRun_run_of_mem worker command false h]
    rfl
  · intro worker command healthCheck r log h
    by_cases hmem : command ∈ healPlaybook
    · rw [healRun_run_of_mem worker command healthCheck hmem] at h
      cases healthCheck with
      | true =>
        rw [if_pos rfl] at h
        injection h with h1 h2
        injection h1 with h1
        subst h1
        exact ⟨rfl, Or.inl rfl⟩
      | false =>
        rw [if_neg (by simp)] at h
        injection h with h1 h2
        injection h1 with h1
        subst h1
        exact ⟨rfl, Or.inr rfl⟩
    · simp [healRun, executeAction_not_mem worker command hmem] at h

/-- Claim C2 witness: the amended theorem applied to a concrete in-playbook
command with a failing primary verification. -/
theorem healRun_self_correction_witness :
    healRun demoWorker "INCREASE_LAMBDA_MEMORY" false =
      (.ok { success := true, action := "ROLLBACK_LAMBDA_VERSION",
             correction := true, status := "healed_after_correction",
             actionsExecuted := ["INCREASE_LAMBDA_MEMORY", "ROLLBACK_LAMBDA_VERSION"] },
       ["INCREASE_LAMBDA_MEMORY", "ROLLBACK_LAMBDA_VERSION"]) :=
  healRun_self_correction_always_reports_healed.1 demoWorker
    "INCREASE_LAMBDA_MEMORY" (by decide)

/-- Claim C10. `executeAction` raises `Unknown plan` exactly for commands
outside the four-entry playbook, dispatching nothing in that case; the
playbook is exactly the four listed commands; `LOG_ONLY` — the rule-based
planner's default — is outside it, so a `LOG_ONLY` plan always makes
`HealAgent.run` throw before any action or fallback is dispatched. -/
theorem executeAction_unknown_plan_exactly_outside_playbook :
    (∀ (worker : Worker) (command : String),
       (executeAction worker command).1 = .error ("Unknown plan: " ++ command)
         ↔ command ∉ healPlaybook)
    ∧ (∀ (worker : Worker) (command : String), command ∉ healPlaybook →
         executeAction worker command = (.error ("Unknown plan: " ++ command), []))
    ∧ healPlaybook = ["RESTART_LAMBDA", "INCREASE_LAMBDA_TIMEOUT",
        "INCREASE_LAMBDA_MEMORY", "ROLLBACK_LAMBDA_VERSION"]
    ∧ "LOG_ONLY" ∉ healPlaybook
    ∧ (∀ (worker : Worker) (healthCheck : Bool),
         healRun worker "LOG_ONLY" healthCheck =
           (.error ("Unknown plan: " ++ "LOG_ONLY"), [])) := by
  refine ⟨?_, executeAction_not_mem, rfl, by decide, ?_⟩
  · intro worker command
    constructor
    · intro h hmem
      obtain ⟨r, hr⟩ := executeAction_mem worker command hmem
      rw [hr] at h
      cases h
    · intro h
      rw [executeAction_not_mem worker command h]
  · intro worker healthCheck
    simp [healRun, executeAction_not_mem worker "LOG_ONLY" (by decide)]

/-- Claim C10 witness: the theorem applied to the planner's `LOG_ONLY`
output and to another out-of-playbook command. -/
theorem executeAction_unknown_plan_witness :
    executeAction demoWorker "SCALE_UP" = (.error ("Unknown plan: " ++ "SCALE_UP"), []) :=
  executeAction_unknown_plan_exactly_outside_playbook.2.1 demoWorker "SCALE_UP" (by decide)

/-! ## AWS capability adapter — `src/agents/aws/AwsHealAgent.js` -/

/-- `config.Timeout || 3`: JavaScript `||` replaces both a missing and a
zero value by the default. -/
def jsOrNat : Option Nat → Nat → Nat
  | none, d => d
  | some 0, d => d
  | some (n + 1), _ => n + 1

/-- The environment `increaseLambdaTimeout` runs against: the Lambda
configuration lookup either fails with `ResourceNotFoundException`, returns
a configuration (with an optional `Timeout` field), or fails with some other
infrastructure error. -/
inductive AwsLambdaEnv where
  | notFound
  | found (cfgTimeout : Option Nat)
  | infraError (msg : String)
deriving Repr, DecidableEq

/-- The result objects produced by `AwsHealAgent.increaseLambdaTimeout`
(absent JavaScript fields are `none`). -/
structure AwsActionResult where
  success : Bool
  action : String
  status : Option String
  currentTimeout : Option Nat
  oldValue : Option Nat
  newValue : Option Nat
deriving Repr, DecidableEq

/-- `AwsHealAgent.increaseLambdaTimeout`: double the timeout capped at 900s;
report `at_max` when the cap makes the value unchanged; degrade a
`ResourceNotFoundException` to a successful fallback result; rethrow other
errors. -/
def increaseLambdaTimeout : AwsLambdaEnv → Except String AwsActionResult
  | .notFound =>
    .ok { success := true, action := "INCREASE_LAMBDA_TIMEOUT_FALLBACK",
          status := some "not_found", currentTimeout := none,
          oldValue := none, newValue := none }
  | .found cfgTimeout =>
    let currentTimeout := jsOrNat cfgTimeout 3
    let newTimeout := min (currentTimeout * 2) 900
    if newTimeout = currentTimeout then
      .ok { success := true, action := "INCREASE_LAMBDA_TIMEOUT",
            status := some "at_max", currentTimeout := some currentTimeout,
            oldValue := none, newValue := none }
    else
      .ok { success := true, action := "INCREASE_LAMBDA_TIMEOUT",
            status := none, currentTimeout := none,
            oldValue := some currentTimeout, newValue := some newTimeout }
  | .infraError msg => .error msg

/-- Claim C9. Recoverable capability failures are degraded instead of
propagated: a known command whose worker throws yields the
`simulated_success` result (so `HealAgent.run` proceeds to verification);
`increaseLambdaTimeout` turns a missing resource into a successful fallback
result and a timeout already at the 900s provider maximum into an `at_max`
outcome, throwing in neither case. -/
theorem dispatcher_degrades_recoverable_failures :
    (∀ (worker : Worker) (command : String) (e : String),
       command ∈ healPlaybook → worker command = .error e →
       (executeAction worker command).1 =
         .ok { status := "simulated_success", action := command })
    ∧ increaseLambdaTimeout .notFound =
        .ok { success := true, action := "INCREASE_LAMBDA_TIMEOUT_FALLBACK",
              status := some "not_found", currentTimeout := none,
              oldValue := none, newValue := none }
    ∧ increaseLambdaTimeout (.found (some 900)) =
        .ok { success := true, action := "INCREASE_LAMBDA_TIMEOUT",
              status := some "at_max", currentTimeout := some 900,
              oldValue := none, newValue := none } := by
  refine ⟨?_, rfl, rfl⟩
  intro worker command e hmem herr
  unfold executeAction
  rw [if_pos hmem, herr]

/-- Claim C9 witness: the theorem applied to a worker whose underlying call
throws, on a concrete in-playbook command. -/
theorem dispatcher_degrades_recoverable_failures_witness :
    (executeAction failWorker "RESTART_LAMBDA").1 =
      .ok { status := "simulated_success", action := "RESTART_LAMBDA" } :=
  dispatcher_degrades_recoverable_failures.1 failWorker "RESTART_LAMBDA"
    "ResourceNotFoundException" (by decide) rfl

/-! ## Approval Gate — `src/middleware/hitlController.js` (`HITLController`) -/

/-- A value stored in `this.pendingApprovals`: plan snapshot, creation
timestamp, and a status string mutated in place by `approve`/`deny`. -/
structure ApprovalEntry where
  plan : String
  timestamp : Nat
  status : String
deriving Repr, DecidableEq

/-- The objects `requestApproval`'s promise resolves with (absent JavaScript
fields are `false`). -/
structure HitlDecision where
  approved : Bool
  auto : Bool
  timeout : Bool
deriving Repr, DecidableEq

/-- `this.pendingApprovals` (a JavaScript `Map`), as an insertion-ordered
association list. -/
abbrev Registry := List (String × ApprovalEntry)

/-- `Map.get`. -/
def regGet : Registry → String → Option ApprovalEntry
  | [], _ => none
  | (k, v) :: rest, incidentId =>
    if k = incidentId then some v else regGet rest incidentId

/-- `Map.set`: replace the value at an existing key, else append. -/
def regSet : Registry → String → ApprovalEntry → Registry
  | [], incidentId, e => [(incidentId, e)]
  | (k, v) :: rest, incidentId, e =>
    if k = incidentId then (incidentId, e) :: rest
    else (k, v) :: regSet rest incidentId e

/-- The entry `requestApproval` stores in copilot mode. -/
def pendingEntry (plan : String) (t0 : Nat) : ApprovalEntry :=
  { plan := plan, timestamp := t0, status := "pending" }

/-- The synchronous part of `HITLController.requestApproval`: in autonomous
mode resolve immediately with the auto-approval; in copilot mode store a
pending entry (overwriting any existing one — the code performs no check)
and start waiting. No code path throws, hence the `Except` is always `ok`. -/
def requestApprovalStart (mode : String) (reg : Registry)
    (incidentId plan : String) (now : Nat) :
    Except String (Registry × Option HitlDecision) :=
  if mode = "autonomous" then
    .ok (reg, some { approved := true, auto := true, timeout := false })
  else
    .ok (regSet reg incidentId (pendingEntry plan now), none)

/-- One tick of the copilot polling loop (`setInterval` callback): re-read
the entry and resolve on an `approved` status, a `denied` status, or more
than 300000 ms elapsed since the stored timestamp; otherwise keep waiting. -/
def checkApproval (entry : Option ApprovalEntry) (now : Nat) :
    Option HitlDecision :=
  match entry with
  | none => none
  | some a =>
    if a.status = "approved" then
      some { approved := true, auto := false, timeout := false }
    else if a.status = "denied" then
      some { approved := false, auto := false, timeout := false }
    else if now - a.timestamp > 300000 then
      some { approved := false, auto := false, timeout := true }
    else none

/-- The polling loop itself: the interval fires at one-second ticks, so the
`k`-th tick sees `Date.now() = t0 + 1000 * k`; the promise resolves with the
first tick whose check fires, and `clearInterval` stops the loop there. The
entry is fixed because, with no `approve`/`deny` call, nothing mutates it. -/
def firstResolution (entry : ApprovalEntry) (t0 : Nat) :
    Nat → Nat → Option (Nat × HitlDecision)
  | 0, _ => none
  | fuel + 1, k =>
    match checkApproval (some entry) (t0 + 1000 * k) with
    | some d => some (k, d)
    | none => firstResolution entry t0 fuel (k + 1)

theorem checkApproval_pending_quiet (plan : String) (t0 k : Nat)
    (hk : k ≤ 300) :
    checkApproval (some (pendingEntry plan t0)) (t0 + 1000 * k) = none := by
  simp only [checkApproval, pendingEntry]
  rw [if_neg (by decide), if_neg (by decide), if_neg (by omega)]

theorem checkApproval_pending_timesOut (plan : String) (t0 k : Nat)
    (hk : 300 < k) :
    checkApproval (some (pendingEntry plan t0)) (t0 + 1000 * k) =
      some { approved := false, auto := false, timeout := true } := by
  simp only [checkApproval, pendingEntry]
  rw [if_neg (by decide), if_neg (by decide), if_pos (by omega)]

theorem firstResolution_skip (entry : ApprovalEntry) (t0 : Nat) :
    ∀ (n fuel k : Nat),
      (∀ j, k ≤ j → j < k + n →
        checkApproval (some entry) (t0 + 1000 * j) = none) →
      firstResolution entry t0 (n + fuel) k = firstResolution entry t0 fuel (k + n) := by
  intro n
  induction n with
  | zero => intro fuel k _; simp
  | succ n ih =>
    intro fuel k h
    have hstep : checkApproval (some entry) (t0 + 1000 * k) = none :=
      h k (Nat.le_refl k) (by omega)
    have heq : n + 1 + fuel = (n + fuel) + 1 := by omega
    have hrest : ∀ j, k + 1 ≤ j → j < (k + 1) + n →
        checkApproval (some entry) (t0 + 1000 * j) = none := by
      intro j h1 h2
      exact h j (by omega) (by omega)
    rw [heq]
    simp only [firstResolution, hstep]
    rw [ih fuel (k + 1) hrest, show k + 1 + n = k + (n + 1) from by omega]

/-- Claim C4. In copilot mode, when neither `approve` nor `deny` is ever
called, the entry stays `pending`, every poll inside the five-minute window
keeps waiting, every poll past it produces the timed-out non-approval, and
the loop resolves exactly once — at the first post-window tick (301) — with
`approved = false` and `timeout = true`, so the plan is not executed. -/
theorem requestApproval_times_out_unapproved :
    ∀ (plan : String) (t0 : Nat),
      (∀ k, k ≤ 300 →
        checkApproval (some (pendingEntry plan t0)) (t0 + 1000 * k) = none)
      ∧ (∀ k, 300 < k →
        checkApproval (some (pendingEntry plan t0)) (t0 + 1000 * k) =
          some { approved := false, auto := false, timeout := true })
      ∧ firstResolution (pendingEntry plan t0) t0 400 1 =
          some (301, { approved := false, auto := false, timeout := true }) := by
  intro plan t0
  refine ⟨fun k hk => checkApproval_pending_quiet plan t0 k hk,
          fun k hk => checkApproval_pending_timesOut plan t0 k hk, ?_⟩
  have hskip := firstResolution_skip (pendingEntry plan t0) t0 300 100 1
    (fun j h1 h2 => checkApproval_pending_quiet plan t0 j (by omega))
  have h301 := checkApproval_pending_timesOut plan t0 301 (by omega)
  rw [show (400 : Nat) = 300 + 100 from rfl, hskip,
    show (1 : Nat) + 300 = 301 from rfl, show (100 : Nat) = 99 + 1 from rfl]
  simp only [firstResolution, h301]

/-- Claim C4 witness: the theorem applied at a concrete plan and start time,
read at the first post-window tick. -/
theorem requestApproval_times_out_unapproved_witness :
    checkApproval (some (pendingEntry "RESTART_LAMBDA" 0)) (0 + 1000 * 301) =
      some { approved := false, auto := false, timeout := true } :=
  (requestApproval_times_out_unapproved "RESTART_LAMBDA" 0).2.1 301 (by decide)

theorem regGet_regSet_self (reg : Registry) (incidentId : String)
    (e : ApprovalEntry) : regGet (regSet reg incidentId e) incidentId = some e := by
  induction reg with
  | nil => simp [regSet, regGet]
  | cons kv rest ih =>
    by_cases h : kv.1 = incidentId
    · simp [regSet, regGet, h]
    · simp [regSet, regGet, h, ih]

/-- Claim C5 counterexample. A second `requestApproval` in copilot mode for
an incident that already has a pending request does not fail: it resolves
the registration step normally and silently replaces the stored request with
the new one. -/
theorem requestApproval_second_call_counterexample :
    requestApprovalStart "copilot" [("inc-1", pendingEntry "plan-A" 0)]
        "inc-1" "plan-B" 5 =
      .ok ([("inc-1", pendingEntry "plan-B" 5)], none) := rfl

/-- Claim C5 (amended). `requestApproval` never errors: in copilot mode a
call for an incident id — pending request or not — overwrites that id's slot
with the fresh pending request, so the newer request replaces the older one
rather than failing or coexisting with it. -/
theorem requestApproval_overwrites_pending :
    ∀ (reg : Registry) (incidentId plan : String) (now : Nat),
      ∃ reg1 : Registry,
        requestApprovalStart "copilot" reg incidentId plan now = .ok (reg1, none)
        ∧ regGet reg1 incidentId = some (pendingEntry plan now) := by
  intro reg incidentId plan now
  refine ⟨regSet reg incidentId (pendingEntry plan now), ?_, ?_⟩
  · rw [requestApprovalStart, if_neg (by decide)]
  · exact regGet_regSet_self reg incidentId (pendingEntry plan now)

/-- `HITLController.approve`: mark the stored request approved in place (a
no-op when no request exists); nothing is ever deleted. -/
def approveOp (reg : Registry) (incidentId : String) : Registry :=
  match regGet reg incidentId with
  | some a => regSet reg incidentId { a with status := "approved" }
  | none => reg

/-- `HITLController.deny`: mark the stored request denied in place (a no-op
when no request exists); nothing is ever deleted. -/
def denyOp (reg : Registry) (incidentId : String) : Registry :=
  match regGet reg incidentId with
  | some a => regSet reg incidentId { a with status := "denied" }
  | none => reg

/-- Claim C8 counterexample. Approving a pending request resolves it but
leaves it in the registry with status `approved` — the registry then
contains a non-pending request, contradicting deletion on resolution. -/
theorem resolved_request_not_deleted_counterexample :
    approveOp [("inc-1", pendingEntry "plan-A" 0)] "inc-1" =
      [("inc-1", { plan := "plan-A", timestamp := 0, status := "approved" })]
    ∧ regGet (approveOp [("inc-1", pendingEntry "plan-A" 0)] "inc-1") "inc-1" =
        some { plan := "plan-A", timestamp := 0, status := "approved" } :=
  ⟨rfl, rfl⟩

theorem regSet_keys_of_get (reg : Registry) (incidentId : String)
    (e : ApprovalEntry) (a : ApprovalEntry)
    (h : regGet reg incidentId = some a) :
    (regSet reg incidentId e).map Prod.fst = reg.map Prod.fst := by
  induction reg with
  | nil => simp [regGet] at h
  | cons kv rest ih =>
    by_cases hk : kv.1 = incidentId
    · cases kv
      subst hk
      simp [regSet]
    · simp only [regGet, if_neg hk] at h
      cases kv
      simp only [regSet, if_neg hk]
      simp [ih h]

theorem approveOp_keys (reg : Registry) (incidentId : String) :
    (approveOp reg incidentId).map Prod.fst = reg.map Prod.fst := by
  unfold approveOp
  cases h : regGet reg incidentId with
  | none => rfl
  | some a => exact regSet_keys_of_get reg incidentId _ a h

theorem denyOp_keys (reg : Registry) (incidentId : String) :
    (denyOp reg incidentId).map Prod.fst = reg.map Prod.fst := by
  unfold denyOp
  cases h : regGet reg incidentId with
  | none => rfl
  | some a => exact regSet_keys_of_get reg incidentId _ a h

theorem approveOp_get (reg : Registry) (incidentId : String) :
    regGet (approveOp reg incidentId) incidentId =
      (regGet reg incidentId).map (fun a => { a with status := "approved" }) := by
  unfold approveOp
  cases h : regGet reg incidentId with
  | none => simp [h]
  | some a => simp [regGet_regSet_self]

theorem denyOp_get (reg : Registry) (incidentId : String) :
    regGet (denyOp reg incidentId) incidentId =
      (regGet reg incidentId).map (fun a => { a with status := "denied" }) := by
  unfold denyOp
  cases h : regGet reg incidentId with
  | none => simp [h]
  | some a => simp [regGet_regSet_self]

/-- Claim C8 (amended). Resolution never deletes anything from the Approval
Gate's registry: `approve` and `deny` keep the registry's keys unchanged and
merely rewrite the stored request's status in place (timeout resolution does
not touch the registry at all in the code), so resolved requests remain
stored and the registry is not pending-only. -/
theorem hitl_resolution_keeps_requests_in_registry :
    ∀ (reg : Registry) (incidentId : String),
      (approveOp reg incidentId).map Prod.fst = reg.map Prod.fst
      ∧ (denyOp reg incidentId).map Prod.fst = reg.map Prod.fst
      ∧ regGet (approveOp reg incidentId) incidentId =
          (regGet reg incidentId).map (fun a => { a with status := "approved" })
      ∧ regGet (denyOp reg incidentId) incidentId =
          (regGet reg incidentId).map (fun a => { a with status := "denied" }) :=
  fun reg incidentId =>
    ⟨approveOp_keys reg incidentId, denyOp_keys reg incidentId,
     approveOp_get reg incidentId, denyOp_get reg incidentId⟩

/-! ## String containment (JavaScript `String.prototype.includes`) -/

/-- Character-list prefix test. -/
def isPrefixChars : List Char → List Char → Bool
  | [], _ => true
  | _ :: _, [] => false
  | a :: as, b :: bs => a == b && isPrefixChars as bs

/-- Character-list containment: the needle occurs at some position. -/
def containsChars : List Char → List Char → Bool
  | needle, [] => needle.isEmpty
  | needle, c :: rest => isPrefixChars needle (c :: rest) || containsChars needle rest

/-- `hay.includes(needle)` — case-sensitive substring containment. -/
def containsSub (hay needle : String) : Bool :=
  containsChars needle.toList hay.toList

/-- `s.toLowerCase()` for the ASCII identifiers used as provider keys. -/
def toLowerStr (s : String) : String :=
  String.mk (s.toList.map Char.toLower)

/-- `s.toUpperCase()` for the ASCII action names. -/
def toUpperStr (s : String) : String :=
  String.mk (s.toList.map Char.toUpper)

/-! ## Rule-based fallback planner — `src/clients/amazonQClient.js`
(`AmazonQClient.intelligentFallback`) -/

/-- The analysis object `intelligentFallback` returns. -/
structure FallbackAnalysis where
  root_cause_analysis : String
  remediation_plan : String
  policy_citation : String
  financial_impact : String
  ai_provider : String
deriving Repr, DecidableEq

/-- `AmazonQClient.intelligentFallback`: deterministic rules on the alarm
name, applied in source order — timeout/duration first, then error/failure,
then memory, defaulting to `LOG_ONLY`. -/
def intelligentFallback (alarmName : String) (errorMsg : String) :
    FallbackAnalysis :=
  let base : FallbackAnalysis :=
    { root_cause_analysis :=
        "AI Connectivity Error (" ++ errorMsg ++ "). Switched to deterministic fallback rules.",
      remediation_plan := "LOG_ONLY",
      policy_citation := "SOP-FALLBACK-99",
      financial_impact := "Unknown",
      ai_provider := "Rule-Based Fallback" }
  if containsSub alarmName "Timeout" || containsSub alarmName "Duration" then
    { base with
      root_cause_analysis := base.root_cause_analysis ++ " Pattern match: Timeout detected.",
      remediation_plan := "INCREASE_LAMBDA_TIMEOUT",
      financial_impact := "+10% Compute Cost" }
  else if containsSub alarmName "Error" || containsSub alarmName "Failure" then
    { base with
      root_cause_analysis := base.root_cause_analysis ++ " Pattern match: Transient Failure.",
      remediation_plan := "RESTART_LAMBDA",
      financial_impact := "Zero Cost" }
  else if containsSub alarmName "Memory" then
    { base with
      root_cause_analysis := base.root_cause_analysis ++ " Pattern match: OOM Exception.",
      remediation_plan := "INCREASE_LAMBDA_MEMORY",
      financial_impact := "+15% Compute Cost" }
  else base

/-- Claim C7. The fallback planner's remediation plan follows the source's
ordered pattern rules — timeout/duration name patterns give
`INCREASE_LAMBDA_TIMEOUT`, otherwise error/failure patterns give
`RESTART_LAMBDA`, otherwise a memory pattern gives
`INCREASE_LAMBDA_MEMORY`, and an unrecognized name gives `LOG_ONLY`; in
particular the alarm name `HighErrorAlarm` always yields `RESTART_LAMBDA`. -/
theorem intelligentFallback_rules :
    (∀ (alarmName errorMsg : String),
      ((containsSub alarmName "Timeout" || containsSub alarmName "Duration") = true →
        (intelligentFallback alarmName errorMsg).remediation_plan = "INCREASE_LAMBDA_TIMEOUT")
      ∧ ((containsSub alarmName "Timeout" || containsSub alarmName "Duration") = false →
         (containsSub alarmName "Error" || containsSub alarmName "Failure") = true →
        (intelligentFallback alarmName errorMsg).remediation_plan = "RESTART_LAMBDA")
      ∧ ((containsSub alarmName "Timeout" || containsSub alarmName "Duration") = false →
         (containsSub alarmName "Error" || containsSub alarmName "Failure") = false →
         containsSub alarmName "Memory" = true →
        (intelligentFallback alarmName errorMsg).remediation_plan = "INCREASE_LAMBDA_MEMORY")
      ∧ ((containsSub alarmName "Timeout" || containsSub alarmName "Duration") = false →
         (containsSub alarmName "Error" || containsSub alarmName "Failure") = false →
         containsSub alarmName "Memory" = false →
        (intelligentFallback alarmName errorMsg).remediation_plan = "LOG_ONLY"))
    ∧ (∀ errorMsg : String,
        (intelligentFallback "HighErrorAlarm" errorMsg).remediation_plan = "RESTART_LAMBDA") := by
  constructor
  · intro alarmName errorMsg
    refine ⟨fun h1 => ?_, fun h1 h2 => ?_, fun h1 h2 h3 => ?_, fun h1 h2 h3 => ?_⟩
    · simp [intelligentFallback, h1]
    · simp [intelligentFallback, h1, h2]
    · simp [intelligentFallback, h1, h2, h3]
    · simp [intelligentFallback, h1, h2, h3]
  · intro errorMsg
    rfl

/-- Claim C7 witness: the ordered rules applied to concrete alarm names from
each category. -/
theorem intelligentFallback_rules_witness :
    (intelligentFallback "HighMemoryAlarm" "q-unavailable").remediation_plan =
      "INCREASE_LAMBDA_MEMORY" :=
  ((intelligentFallback_rules.1 "HighMemoryAlarm" "q-unavailable").2.2.1
    (by decide) (by decide) (by decide))

/-! ## Action Dispatcher — the two `MultiCloudHealer` revisions
(`src/agents/MultiCloudHealer.js`, and the later revision stored after
`src/agents/aws/AwsHealAgent.js`) -/

/-- The provider keys of `this.adapters` in both revisions. -/
def adapters : List String := ["aws", "azure", "gcp"]

/-- A result object returned by an adapter capability or by `heal`; absent
JavaScript fields are `none`. -/
structure DispatchResult where
  status : String
  provider : Option String
  resource : Option String
  note : Option String
  action : Option String
  errorMsg : Option String
deriving Repr, DecidableEq

/-- Original revision's `getAdapter`: table lookup on
`provider?.toLowerCase()`; a missing key throws
`Unsupported Cloud Provider: ...`. -/
def strictGetAdapter (provider : String) : Except String String :=
  if toLowerStr provider ∈ adapters then .ok (toLowerStr provider)
  else .error ("Unsupported Cloud Provider: " ++ provider)

/-- Later revision's `getAdapter` ("Updated for Resilience"): the same
lookup, but a missing key silently falls back to the AWS adapter. -/
def resilientGetAdapter (provider : String) : String :=
  if toLowerStr provider ∈ adapters then toLowerStr provider else "aws"

/-- Original revision's `AwsAdapter.restartService`: a real SDK call whose
failure (`awsErr`) is caught and returned as a `failed` result. The Azure
and GCP stubs always return simulated success. -/
def strictRestartService (adapter : String) (awsErr : Option String)
    (resourceId : String) : DispatchResult :=
  if adapter = "aws" then
    match awsErr with
    | none =>
      { status := "success", provider := some "AWS", resource := some resourceId,
        note := none, action := none, errorMsg := none }
    | some m =>
      { status := "failed", provider := none, resource := none,
        note := none, action := none, errorMsg := some m }
  else if adapter = "azure" then
    { status := "success", provider := some "Azure", resource := some resourceId,
      note := some "Simulated", action := none, errorMsg := none }
  else
    { status := "success", provider := some "GCP", resource := some resourceId,
      note := some "Simulated", action := none, errorMsg := none }

/-- Original revision's `heal`: route the action through the adapter from
`getAdapter`; `SCALE_UP` hits the unimplemented base-class method (which
throws `Not Implemented`), and any other action throws `Unknown action`. -/
def strictHeal (awsErr : Option String) (targetProvider action resourceId : String) :
    Except String DispatchResult :=
  match strictGetAdapter targetProvider with
  | .error e => .error e
  | .ok adapter =>
    match action with
    | "RESTART" => .ok (strictRestartService adapter awsErr resourceId)
    | "SCALE_UP" => .error "Not Implemented"
    | _ => .error ("Unknown action " ++ action)

/-- Later revision's `AwsAdapter.restartService`: an SDK failure is degraded
to `simulated_success` instead of a `failed` result. -/
def resilientRestartService (adapter : String) (awsErr : Option String)
    (resourceId : String) : DispatchResult :=
  if adapter = "aws" then
    match awsErr with
    | none =>
      { status := "success", provider := some "AWS", resource := some resourceId,
        note := none, action := none, errorMsg := none }
    | some _ =>
      { status := "simulated_success", provider := some "AWS",
        resource := some resourceId, note := some "Simulated Restart",
        action := none, errorMsg := none }
  else if adapter = "azure" then
    { status := "success", provider := some "Azure", resource := some resourceId,
      note := some "Simulated AppService Restart", action := none, errorMsg := none }
  else
    { status := "success", provider := some "GCP", resource := some resourceId,
      note := some "Simulated CloudRun Revision", action := none, errorMsg := none }

/-- Later revision's `scaleUp` implementations. -/
def resilientScaleUp (adapter : String) (resourceId : String) : DispatchResult :=
  if adapter = "aws" then
    { status := "success", provider := some "AWS", resource := some resourceId,
      note := none, action := some "AutoScaling Group +1", errorMsg := none }
  else if adapter = "azure" then
    { status := "success", provider := some "Azure", resource := some resourceId,
      note := some "Simulated VM ScaleSet +1", action := none, errorMsg := none }
  else
    { status := "success", provider := some "GCP", resource := some resourceId,
      note := some "Simulated MIG Resize", action := none, errorMsg := none }

/-- Later revision's `heal`: adapter from the defaulting `getAdapter`;
normalized action names containing `RESTART` (or equal to
`EMERGENCY_RESTART`) restart, names containing `SCALE` scale up, and
anything else returns a generic success "to prevent crash". -/
def resilientHeal (awsErr : Option String)
    (targetProvider action resourceId : String) : Except String DispatchResult :=
  let adapter := resilientGetAdapter targetProvider
  let normalizedAction := toUpperStr action
  if containsSub normalizedAction "RESTART" || normalizedAction == "EMERGENCY_RESTART" then
    .ok (resilientRestartService adapter awsErr resourceId)
  else if containsSub normalizedAction "SCALE" then
    .ok (resilientScaleUp adapter resourceId)
  else
    .ok { status := "success", provider := none, resource := none,
          note := some "Generic Handler Executed", action := some action,
          errorMsg := none }

/-- Claim C6 counterexample. In the later `MultiCloudHealer` revision the
unregistered provider `"UNKNOWN"` is silently routed to the default AWS
adapter: `getAdapter` returns the AWS adapter and `heal` produces a normal
ActionResult instead of failing with an unsupported-provider error. -/
theorem dispatch_unknown_provider_counterexample :
    resilientGetAdapter "UNKNOWN" = "aws"
    ∧ resilientHeal none "UNKNOWN" "RESTART" "api-service" =
        .ok { status := "success", provider := some "AWS",
              resource := some "api-service", note := none,
              action := none, errorMsg := none } :=
  ⟨rfl, rfl⟩

/-- Claim C6 (amended). The two dispatcher revisions diverge on unregistered
providers: the original `MultiCloudHealer.getAdapter` makes `heal` fail with
`Unsupported Cloud Provider` before producing any ActionResult, while the
later revision's `getAdapter` silently substitutes the AWS adapter, so its
`heal` dispatches the action to AWS and returns that adapter's result. -/
theorem dispatch_unknown_provider_two_revisions :
    (∀ (provider action resourceId : String) (awsErr : Option String),
       toLowerStr provider ∉ adapters →
       strictHeal awsErr provider action resourceId =
         .error ("Unsupported Cloud Provider: " ++ provider))
    ∧ (∀ provider : String, toLowerStr provider ∉ adapters →
         resilientGetAdapter provider = "aws")
    ∧ (∀ (provider resourceId : String) (awsErr : Option String),
         toLowerStr provider ∉ adapters →
         resilientHeal awsErr provider "RESTART" resourceId =
           .ok (resilientRestartService "aws" awsErr resourceId)) := by
  refine ⟨?_, ?_, ?_⟩
  · intro provider action resourceId awsErr h
    simp [strictHeal, strictGetAdapter, h]
  · intro provider h
    simp [resilientGetAdapter, h]
  · intro provider resourceId awsErr h
    have ha : resilientGetAdapter provider = "aws" := by
      simp [resilientGetAdapter, h]
    simp only [resilientHeal, ha]
    rw [if_pos (by decide)]

/-- Claim C6 witness: the amended theorem applied to the spec's Scenario D
provider `"UNKNOWN"`. -/
theorem dispatch_unknown_provider_witness :
    strictHeal none "UNKNOWN" "RESTART" "api-service" =
      .error ("Unsupported Cloud Provider: " ++ "UNKNOWN") :=
  dispatch_unknown_provider_two_revisions.1 "UNKNOWN" "RESTART" "api-service"
    none (by decide)

end AuraSpec
